import Mathlib

/-!
Verification of the x-proxy-tester fleet engine against its specification.

The definitions below are shallow embeddings of the TypeScript sources:
  * `src/services/continuous-proxy-tester.ts` (status mapping, rotation
    tracking, the per-probe persistence step),
  * `src/services/stability-calculator.ts` (sliding-window classifier),
  * `src/services/auto-deactivation.ts` (deactivation rules),
  * `src/lib/circuit-breaker.ts` (circuit breaker state machine),
  * `src/services/ip-rotation.ts` (per-device in-flight rotation guard),
  * `src/clients/proxyClient.ts` (response-path outcome classification).
JavaScript timestamps are modelled as `Int` milliseconds, nullable values as
`Option`, and JavaScript falsiness of `""` and `0` is preserved where the
source relies on `||`.
-/

namespace XProxy

/-- Rotation status of a proxy record (`'Unknown' | 'Rotated' | 'NoRotation'`
as written by continuous-proxy-tester.ts). -/
inductive RotationStatus
  | Unknown
  | Rotated
  | NoRotation
deriving DecidableEq, Repr

/-- Persisted outcome of one probe (`RequestStatus` in src/types). -/
inductive RequestStatus
  | SUCCESS
  | TIMEOUT
  | CONNECTION_ERROR
  | HTTP_ERROR
  | DNS_ERROR
  | OTHER
deriving DecidableEq, Repr

/-- Error classification a failed probe carries (`ErrorType` in src/types). -/
inductive ErrorType
  | TIMEOUT
  | CONNECTION_REFUSED
  | CONNECTION_RESET
  | DNS_ERROR
  | HTTP_ERROR
  | TLS_ERROR
  | OTHER
deriving DecidableEq, Repr

/-- Stability classification (`StabilityStatus` in src/types). -/
inductive StabilityStatus
  | Unknown
  | Stable
  | UnstableHourly
  | UnstableDaily
deriving DecidableEq, Repr

/-- JavaScript `s || null` on a nullable string: the empty string is falsy
and collapses to null. -/
def jsOrNull : Option String → Option String
  | some s => if s = "" then none else some s
  | none => none

/-- JavaScript `n || null` on a nullable number: `0` is falsy. -/
def jsOrNullNat : Option Nat → Option Nat
  | some n => if n = 0 then none else some n
  | none => none

/-- The fields of `ProxyMetrics` the persistence and status-mapping code
reads (src/types; produced by requestThroughProxy / testProxyWithStats). -/
structure ProxyMetrics where
  success : Bool
  errorType : Option ErrorType
  httpStatus : Option Nat
  outboundIp : Option String
  responseTimeMs : Nat
  timestamp : Int
deriving DecidableEq, Repr

/-- `mapToRequestStatus` from continuous-proxy-tester.ts lines 61-78: a
successful probe is SUCCESS; otherwise the error type is mapped, with the
switch default (including an absent error type and TLS_ERROR) giving OTHER. -/
def mapToRequestStatus (m : ProxyMetrics) : RequestStatus :=
  if m.success then .SUCCESS
  else
    match m.errorType with
    | some .TIMEOUT => .TIMEOUT
    | some .CONNECTION_REFUSED => .CONNECTION_ERROR
    | some .CONNECTION_RESET => .CONNECTION_ERROR
    | some .HTTP_ERROR => .HTTP_ERROR
    | some .DNS_ERROR => .DNS_ERROR
    | _ => .OTHER

/-- `String.prototype.toLowerCase` restricted to ASCII: lowercase every
character. -/
def jsToLowerCase (s : String) : String := ⟨s.data.map Char.toLower⟩

/-- `String.prototype.trim`: drop leading and trailing whitespace. -/
def jsTrim (s : String) : String :=
  ⟨((s.data.dropWhile Char.isWhitespace).reverse.dropWhile Char.isWhitespace).reverse⟩

/-- `mapProxyStatusToActive` from continuous-proxy-tester.ts lines 92-101:
a missing (null/undefined) or empty status is inactive; otherwise the status
is lowercased, trimmed and compared to "active". -/
def mapProxyStatusToActive : Option String → Bool
  | none => false
  | some s => if s = "" then false else jsTrim (jsToLowerCase s) == "active"

/-- The metrics `requestThroughProxy` (proxyClient.ts lines 252-261) returns
when the target answered with an HTTP status code and no exception was
thrown: success is `200 <= status < 400` (2xx and 3xx), the status code is
kept, and no error type is set. The transient-retry loop only repeats the
attempt; its terminal return is this shape. -/
def responsePathMetrics (statusCode : Nat) (outboundIp : Option String)
    (responseTimeMs : Nat) (timestamp : Int) : ProxyMetrics :=
  { success := decide (200 ≤ statusCode) && decide (statusCode < 400)
    errorType := none
    httpStatus := some statusCode
    outboundIp := outboundIp
    responseTimeMs := responseTimeMs
    timestamp := timestamp }

/-- C10: `mapProxyStatusToActive` returns true exactly when the status is
present and its lowercased, trimmed form is the string "active"; a missing
or empty status, and every other value including the maintenance states,
maps to inactive. -/
theorem C10_map_proxy_status_to_active_spec :
    (∀ os : Option String,
      mapProxyStatusToActive os = true ↔
        ∃ s, os = some s ∧ jsTrim (jsToLowerCase s) = "active") ∧
    mapProxyStatusToActive none = false ∧
    mapProxyStatusToActive (some "") = false ∧
    mapProxyStatusToActive (some "maintenance") = false ∧
    mapProxyStatusToActive (some "in_maintenance") = false ∧
    mapProxyStatusToActive (some " Active ") = true ∧
    mapProxyStatusToActive (some "active") = true := by
  refine ⟨?_, by decide, by decide, by decide, by decide, by decide, by decide⟩
  intro os
  cases os with
  | none => simp [mapProxyStatusToActive]
  | some s =>
      by_cases h : s = ""
      · subst h
        simp only [mapProxyStatusToActive, if_pos rfl]
        constructor
        · intro hfalse
          exact absurd hfalse (by decide)
        · rintro ⟨t, ht, htriv⟩
          obtain rfl : ("" : String) = t := by injection ht
          exact absurd htriv (by decide)
      · simp only [mapProxyStatusToActive, if_neg h]
        constructor
        · intro hbeq
          exact ⟨s, rfl, by simpa [beq_iff_eq] using hbeq⟩
        · rintro ⟨t, ht, htrim⟩
          obtain rfl : s = t := by injection ht
          simpa [beq_iff_eq] using htrim

/-- C9 counterexample: a probe whose target responds 404 (non-2xx) is
recorded as OTHER, not HTTP_ERROR, and a 301 response is recorded as
SUCCESS — both contradict the claim that every non-2xx response yields
HttpError. -/
theorem C9_non2xx_not_http_error :
    mapToRequestStatus (responsePathMetrics 404 none 10 0) = .OTHER ∧
    mapToRequestStatus (responsePathMetrics 404 none 10 0) ≠ .HTTP_ERROR ∧
    mapToRequestStatus (responsePathMetrics 301 none 10 0) = .SUCCESS := by
  refine ⟨by decide, by decide, by decide⟩

/-- C9 amended: on the response path (target answered with a status code)
the recorded outcome is SUCCESS for 2xx/3xx and OTHER for every other code,
never HTTP_ERROR, because that path sets no error type and the status mapper
defaults to OTHER; HTTP_ERROR is recorded only for failed probes whose error
classification is HTTP_ERROR (e.g. proxy-authentication failures). -/
theorem C9_response_status_amended (statusCode : Nat) (ip : Option String)
    (rt : Nat) (ts : Int) :
    (mapToRequestStatus (responsePathMetrics statusCode ip rt ts) =
      if 200 ≤ statusCode ∧ statusCode < 400 then .SUCCESS else .OTHER) ∧
    (∀ m : ProxyMetrics, m.success = false → m.errorType = some .HTTP_ERROR →
      mapToRequestStatus m = .HTTP_ERROR) := by
  constructor
  · by_cases h1 : 200 ≤ statusCode
    · by_cases h2 : statusCode < 400
      · simp [mapToRequestStatus, responsePathMetrics, h1, h2]
      · simp [mapToRequestStatus, responsePathMetrics, h1, h2]
    · simp [mapToRequestStatus, responsePathMetrics, h1]
  · intro m hs he
    simp [mapToRequestStatus, hs, he]

/-! ## Per-device in-flight rotation guard (src/services/ip-rotation.ts)

`rotateIpForInactiveProxy` checks the `rotationInProgress` map, returns the
pending promise when one exists, and otherwise posts one rotation command to
a worker and stores the new promise. There is no suspension point between
the map lookup and the map insert in the source (the async IIFE runs its
synchronous prefix — including posting the worker message — before
`rotationInProgress.set`), so the lookup-command-insert sequence is modelled
as one atomic step of the module state. -/

/-- Module state of ip-rotation.ts: the in-flight map (device id to the
pending promise, identified by a serial number), the next fresh promise id,
and the log of rotation commands issued to workers. -/
structure RotationGuardState where
  inFlight : List (String × Nat)
  nextPromiseId : Nat
  commandsIssued : List (String × Nat)
deriving DecidableEq, Repr

/-- One call of `rotateIpForInactiveProxy` (lines 486-554): return the
pending promise when the map holds one for the device; otherwise issue one
rotation command, record the new pending promise, and return it. -/
def rotateIpForInactiveProxy (st : RotationGuardState) (deviceId : String) :
    Nat × RotationGuardState :=
  match st.inFlight.lookup deviceId with
  | some p => (p, st)
  | none =>
      (st.nextPromiseId,
        { inFlight := (deviceId, st.nextPromiseId) :: st.inFlight
          nextPromiseId := st.nextPromiseId + 1
          commandsIssued := (deviceId, st.nextPromiseId) :: st.commandsIssued })

/-- The `.finally` cleanup: when the pending rotation settles, its entry is
removed from the in-flight map. -/
def rotationSettled (st : RotationGuardState) (deviceId : String) :
    RotationGuardState :=
  { st with inFlight := st.inFlight.filter (fun e => e.1 != deviceId) }

/-- C8: a rotation request arriving while the in-flight map already holds a
pending rotation for the device returns that same pending result and issues
no further upstream command; in particular two concurrent requests for one
device collapse into exactly one command. -/
theorem C8_inflight_guard_collapses (st : RotationGuardState) (d : String) :
    ((rotateIpForInactiveProxy (rotateIpForInactiveProxy st d).2 d).1 =
      (rotateIpForInactiveProxy st d).1) ∧
    ((rotateIpForInactiveProxy (rotateIpForInactiveProxy st d).2 d).2 =
      (rotateIpForInactiveProxy st d).2) ∧
    (∀ p, st.inFlight.lookup d = some p →
      rotateIpForInactiveProxy st d = (p, st)) ∧
    (st.inFlight.lookup d = none →
      (rotateIpForInactiveProxy st d).2.commandsIssued =
        (d, st.nextPromiseId) :: st.commandsIssued) := by
  refine ⟨?_, ?_, ?_, ?_⟩
  · cases h : st.inFlight.lookup d with
    | some p => simp [rotateIpForInactiveProxy, h]
    | none => simp [rotateIpForInactiveProxy, h, List.lookup]
  · cases h : st.inFlight.lookup d with
    | some p => simp [rotateIpForInactiveProxy, h]
    | none => simp [rotateIpForInactiveProxy, h, List.lookup]
  · intro p hp
    simp [rotateIpForInactiveProxy, hp]
  · intro hn
    simp [rotateIpForInactiveProxy, hn]

/-! ## Per-probe persistence with rotation tracking
(`saveProxyTestToDatabase`, continuous-proxy-tester.ts lines 128-382)

The function first finds or creates the proxy record (the create stores the
probe's observed IP as `lastIp` and 1 as `sameIpCount`); for an existing
record it commits a portal-info sync (name, credentials, active flag)
outside any transaction. It then computes the rotation fields from the
found-or-created in-memory record and finally commits, in one transaction,
the rotation-field update together with the appended test-request row. -/

/-- The persisted proxy record fields this development tracks. -/
structure ProxyRecord where
  name : String
  active : Bool
  lastIp : Option String
  sameIpCount : Nat
  rotationStatus : RotationStatus
  lastRotationAt : Option Int
  rotationCount : Nat
deriving DecidableEq, Repr

/-- What a probe cycle reads from the portal device: its identifier, name
and `mapProxyStatusToActive device.proxy_status`. -/
structure DeviceSync where
  deviceId : String
  name : String
  isActive : Bool
deriving DecidableEq, Repr

/-- One persisted `proxyRequest` row (the fields the claims mention). -/
structure ProxyRequest where
  proxyId : String
  timestamp : Int
  status : RequestStatus
  httpStatusCode : Option Nat
  responseTimeMs : Nat
  outboundIp : Option String
  ipChanged : Bool
deriving DecidableEq, Repr

/-- `ipChangedFromPrevious` (lines 204-207): both IPs present and distinct. -/
def ipChangedFromPrevious (prev cur : Option String) : Bool :=
  prev.isSome && cur.isSome && decide (prev ≠ cur)

/-- The rotation fields the transaction writes. -/
structure RotationOutcome where
  sameIpCount : Nat
  rotationStatus : RotationStatus
  lastRotationAt : Option Int
  rotationCount : Nat
deriving DecidableEq, Repr

/-- Lines 218-261: the rotation-field computation over the found-or-created
record `proxy`. `lastRotationAt` is initialised to null, so the branch that
flags `NoRotation` leaves it null (erasing any previous timestamp), exactly
as the source does. -/
def computeRotation (proxy : ProxyRecord) (outboundIp : Option String)
    (rotationThreshold : Nat) (now : Int) : RotationOutcome :=
  if !outboundIp.isSome then
    { sameIpCount := proxy.sameIpCount
      rotationStatus := proxy.rotationStatus
      lastRotationAt := proxy.lastRotationAt
      rotationCount := proxy.rotationCount }
  else if !proxy.lastIp.isSome then
    { sameIpCount := 1
      rotationStatus := .Unknown
      lastRotationAt := none
      rotationCount := proxy.rotationCount }
  else if ipChangedFromPrevious proxy.lastIp outboundIp then
    { sameIpCount := 1
      rotationStatus := .Rotated
      lastRotationAt := some now
      rotationCount := proxy.rotationCount + 1 }
  else if proxy.sameIpCount + 1 ≥ rotationThreshold then
    { sameIpCount := proxy.sameIpCount + 1
      rotationStatus := .NoRotation
      lastRotationAt := none
      rotationCount := proxy.rotationCount }
  else if proxy.rotationStatus = .Rotated ∧ proxy.lastRotationAt = none then
    { sameIpCount := proxy.sameIpCount + 1
      rotationStatus := .Unknown
      lastRotationAt := none
      rotationCount := proxy.rotationCount }
  else
    { sameIpCount := proxy.sameIpCount + 1
      rotationStatus := proxy.rotationStatus
      lastRotationAt := proxy.lastRotationAt
      rotationCount := proxy.rotationCount }

/-- The in-memory `proxy` object after find-or-create (lines 154-198): the
found record, or the record `prisma.proxy.create` returns — whose `lastIp`
is already the probe's observed IP (`metrics.outboundIp || null`) and whose
`sameIpCount` is 1 when that IP is present. -/
def foundOrCreated (existing : Option ProxyRecord) (dev : DeviceSync)
    (outboundIp : Option String) : ProxyRecord :=
  match existing with
  | some p => p
  | none =>
      { name := dev.name
        active := dev.isActive
        lastIp := jsOrNull outboundIp
        sameIpCount := if outboundIp.isSome then 1 else 0
        rotationStatus := .Rotated
        lastRotationAt := none
        rotationCount := 0 }

/-- The record the database holds after the pre-transaction step: the
created record, or the existing record with the portal-info sync (name and
active flag) already committed by the update at lines 186-197. -/
def preTxRecord (existing : Option ProxyRecord) (dev : DeviceSync)
    (outboundIp : Option String) : ProxyRecord :=
  match existing with
  | some p => { p with name := dev.name, active := dev.isActive }
  | none => foundOrCreated none dev outboundIp

/-- The `proxyRequest` row the transaction appends (lines 286-300). -/
def mkProxyRequest (dev : DeviceSync) (m : ProxyMetrics)
    (proxy : ProxyRecord) : ProxyRequest :=
  { proxyId := dev.deviceId
    timestamp := m.timestamp
    status := mapToRequestStatus m
    httpStatusCode := jsOrNullNat m.httpStatus
    responseTimeMs := m.responseTimeMs
    outboundIp := jsOrNull m.outboundIp
    ipChanged := ipChangedFromPrevious proxy.lastIp m.outboundIp }

/-- Database state a probe cycle leaves behind for its device: the record,
and the test-request rows the cycle appended. -/
structure SaveOutcome where
  record : ProxyRecord
  requests : List ProxyRequest
deriving DecidableEq, Repr

/-- `saveProxyTestToDatabase` as a state transformer: find-or-create plus
portal sync commit first; then the transaction (rotation-field update and
request append) commits atomically exactly when `txCommits` is true, and is
rolled back otherwise — leaving the pre-transaction record in place. -/
def saveProxyTest (existing : Option ProxyRecord) (dev : DeviceSync)
    (m : ProxyMetrics) (rotationThreshold : Nat) (now : Int)
    (txCommits : Bool) : SaveOutcome :=
  let proxy := foundOrCreated existing dev m.outboundIp
  let pre := preTxRecord existing dev m.outboundIp
  let rot := computeRotation proxy m.outboundIp rotationThreshold now
  if txCommits then
    { record :=
        { pre with
          lastIp := jsOrNull m.outboundIp
          sameIpCount := rot.sameIpCount
          rotationStatus := rot.rotationStatus
          lastRotationAt := rot.lastRotationAt
          rotationCount := rot.rotationCount }
      requests := [mkProxyRequest dev m proxy] }
  else
    { record := pre, requests := [] }

/-- C1: for a probe of a device whose record already holds a previous
observed IP, a differing observed IP yields Rotated, counter 1, rotation
count incremented and rotation timestamp now; an equal observed IP
increments the counter and yields NoRotation exactly when the counter
reaches the threshold (>=), otherwise the previous status is kept except
that Rotated without a rotation timestamp normalises to Unknown; an absent
observed IP leaves the rotation state (status, counter, rotation count,
rotation timestamp) unchanged. -/
theorem C1_rotation_with_previous_ip (p : ProxyRecord) (dev : DeviceSync)
    (m : ProxyMetrics) (thr : Nat) (now : Int) (prev : String)
    (hprev : p.lastIp = some prev) :
    (∀ ip, m.outboundIp = some ip → ip ≠ prev →
      (saveProxyTest (some p) dev m thr now true).record.sameIpCount = 1 ∧
      (saveProxyTest (some p) dev m thr now true).record.rotationStatus = .Rotated ∧
      (saveProxyTest (some p) dev m thr now true).record.rotationCount = p.rotationCount + 1 ∧
      (saveProxyTest (some p) dev m thr now true).record.lastRotationAt = some now) ∧
    (m.outboundIp = some prev →
      (saveProxyTest (some p) dev m thr now true).record.sameIpCount = p.sameIpCount + 1 ∧
      (saveProxyTest (some p) dev m thr now true).record.rotationCount = p.rotationCount ∧
      (saveProxyTest (some p) dev m thr now true).record.rotationStatus =
        (if p.sameIpCount + 1 ≥ thr then .NoRotation
         else if p.rotationStatus = .Rotated ∧ p.lastRotationAt = none then .Unknown
         else p.rotationStatus)) ∧
    (m.outboundIp = none →
      (saveProxyTest (some p) dev m thr now true).record.sameIpCount = p.sameIpCount ∧
      (saveProxyTest (some p) dev m thr now true).record.rotationStatus = p.rotationStatus ∧
      (saveProxyTest (some p) dev m thr now true).record.rotationCount = p.rotationCount ∧
      (saveProxyTest (some p) dev m thr now true).record.lastRotationAt = p.lastRotationAt) := by
  refine ⟨?_, ?_, ?_⟩
  · intro ip hip hne
    have hchanged : ipChangedFromPrevious (some prev) (some ip) = true := by
      simp [ipChangedFromPrevious]
      exact fun h => hne h.symm
    simp [saveProxyTest, foundOrCreated, preTxRecord, computeRotation,
      hprev, hip, hchanged]
  · intro heq
    have hsame : ipChangedFromPrevious (some prev) (some prev) = false := by
      simp [ipChangedFromPrevious]
    by_cases h1 : p.sameIpCount + 1 ≥ thr
    · simp [saveProxyTest, foundOrCreated, preTxRecord, computeRotation,
        hprev, heq, hsame, h1]
    · by_cases h2 : p.rotationStatus = .Rotated ∧ p.lastRotationAt = none
      · simp [saveProxyTest, foundOrCreated, preTxRecord, computeRotation,
          hprev, heq, hsame, h1, h2]
      · simp [saveProxyTest, foundOrCreated, preTxRecord, computeRotation,
          hprev, heq, hsame, h1, h2]
  · intro hno
    simp [saveProxyTest, foundOrCreated, preTxRecord, computeRotation,
      hprev, hno]

/-- C1 witness: the theorem applied to a concrete record holding a previous
IP and a probe observing a different IP. -/
theorem C1_rotation_with_previous_ip_witness :
    (saveProxyTest (some ⟨"n", true, some "1.2.3.4", 3, .Unknown, none, 2⟩)
        ⟨"d", "n", true⟩
        ⟨true, none, some 200, some "5.6.7.8", 40, 0⟩ 10 777 true).record.sameIpCount = 1 ∧
    (saveProxyTest (some ⟨"n", true, some "1.2.3.4", 3, .Unknown, none, 2⟩)
        ⟨"d", "n", true⟩
        ⟨true, none, some 200, some "5.6.7.8", 40, 0⟩ 10 777 true).record.rotationStatus = .Rotated ∧
    (saveProxyTest (some ⟨"n", true, some "1.2.3.4", 3, .Unknown, none, 2⟩)
        ⟨"d", "n", true⟩
        ⟨true, none, some 200, some "5.6.7.8", 40, 0⟩ 10 777 true).record.rotationCount = 3 := by
  have h := (C1_rotation_with_previous_ip
      ⟨"n", true, some "1.2.3.4", 3, .Unknown, none, 2⟩ ⟨"d", "n", true⟩
      ⟨true, none, some 200, some "5.6.7.8", 40, 0⟩ 10 777 "1.2.3.4" rfl).1
      "5.6.7.8" rfl (by decide)
  exact ⟨h.1, h.2.1, h.2.2.1⟩

/-- C2 counterexample: a device with no record yet, whose record is created
by the first probe itself, ends that probe with same-IP counter 2 — the
create stores the observed IP as `lastIp` before the comparison, so the
comparison sees an equal previous IP — contradicting the claim that the
counter is 1 after probe 1 in this case. -/
theorem C2_create_path_counter_is_two :
    (saveProxyTest none ⟨"d", "n", true⟩
        ⟨true, none, some 200, some "1.2.3.4", 40, 0⟩ 10 0 true).record.sameIpCount = 2 ∧
    (saveProxyTest none ⟨"d", "n", true⟩
        ⟨true, none, some 200, some "1.2.3.4", 40, 0⟩ 10 0 true).record.rotationStatus = .Unknown := by
  exact ⟨by decide, by decide⟩

/-- C2 amended: a probe observing an IP on a device whose existing record
has no previous IP leaves rotation status Unknown, same-IP counter 1, no
rotation timestamp, and the rotation count unchanged (0 for a record the
directory refresh created); but when the record is created by the first
probe itself, that probe leaves the counter at 2, rotation count 0, no
rotation timestamp, and status Unknown unless the threshold is at most 2
(then NoRotation). -/
theorem C2_first_ip_state_amended (p : ProxyRecord) (dev : DeviceSync)
    (m : ProxyMetrics) (thr : Nat) (now : Int) (ip : String) :
    (p.lastIp = none → m.outboundIp = some ip →
      (saveProxyTest (some p) dev m thr now true).record.sameIpCount = 1 ∧
      (saveProxyTest (some p) dev m thr now true).record.rotationStatus = .Unknown ∧
      (saveProxyTest (some p) dev m thr now true).record.lastRotationAt = none ∧
      (saveProxyTest (some p) dev m thr now true).record.rotationCount = p.rotationCount) ∧
    (m.outboundIp = some ip → ip ≠ "" →
      (saveProxyTest none dev m thr now true).record.sameIpCount = 2 ∧
      (saveProxyTest none dev m thr now true).record.rotationCount = 0 ∧
      (saveProxyTest none dev m thr now true).record.lastRotationAt = none ∧
      (saveProxyTest none dev m thr now true).record.rotationStatus =
        (if 2 ≥ thr then .NoRotation else .Unknown)) := by
  constructor
  · intro hp hip
    simp [saveProxyTest, foundOrCreated, preTxRecord, computeRotation,
      hp, hip]
  · intro hip hne
    by_cases h1 : 2 ≥ thr
    · simp [saveProxyTest, foundOrCreated, preTxRecord, computeRotation,
        ipChangedFromPrevious, jsOrNull, hip, hne, h1]
    · simp [saveProxyTest, foundOrCreated, preTxRecord, computeRotation,
        ipChangedFromPrevious, jsOrNull, hip, hne, h1]

/-- C5 counterexample: a probe cycle whose transactional step fails still
leaves the portal-sync update committed — the record's active flag has
changed from true to false although no test-request row was committed —
contradicting the claim that the record update (including the active flag)
and the request append commit as one atomic unit. -/
theorem C5_active_committed_despite_tx_failure :
    (saveProxyTest (some ⟨"n", true, some "1.1.1.1", 3, .Unknown, none, 0⟩)
        ⟨"d", "n", false⟩ ⟨false, some .TIMEOUT, none, none, 0, 0⟩
        10 0 false).requests = [] ∧
    (saveProxyTest (some ⟨"n", true, some "1.1.1.1", 3, .Unknown, none, 0⟩)
        ⟨"d", "n", false⟩ ⟨false, some .TIMEOUT, none, none, 0, 0⟩
        10 0 false).record.active = false ∧
    ProxyRecord.active ⟨"n", true, some "1.1.1.1", 3, .Unknown, none, 0⟩ = true := by
  exact ⟨by decide, by decide, by decide⟩

/-- C5 amended: the atomic unit of a probe cycle is the rotation-field
update (last IP, same-IP counter, rotation status, rotation timestamp,
rotation count) together with the test-request append: when the transaction
fails neither happens; but the portal-info sync — in particular the active
flag — is committed by a separate earlier update and persists even when the
transaction fails. -/
theorem C5_transactional_unit_amended (p : ProxyRecord) (dev : DeviceSync)
    (m : ProxyMetrics) (thr : Nat) (now : Int) :
    ((saveProxyTest (some p) dev m thr now false).requests = []) ∧
    ((saveProxyTest (some p) dev m thr now false).record.lastIp = p.lastIp) ∧
    ((saveProxyTest (some p) dev m thr now false).record.sameIpCount = p.sameIpCount) ∧
    ((saveProxyTest (some p) dev m thr now false).record.rotationStatus = p.rotationStatus) ∧
    ((saveProxyTest (some p) dev m thr now false).record.lastRotationAt = p.lastRotationAt) ∧
    ((saveProxyTest (some p) dev m thr now false).record.rotationCount = p.rotationCount) ∧
    ((saveProxyTest (some p) dev m thr now false).record.active = dev.isActive) ∧
    ((saveProxyTest (some p) dev m thr now true).requests = [mkProxyRequest dev m p]) := by
  simp [saveProxyTest, preTxRecord, foundOrCreated]

/-! ## Auto-deactivation (src/services/auto-deactivation.ts lines 28-109)

`checkAutoDeactivation` fetches the device's most recent results newest
first, capped at max(consecutive threshold, rate window size), counts
failures backward until the first success, and fires on the consecutive
threshold or — once the window holds at least 10 results — on the failure
rate. Rates are modelled over ℚ; the source compares IEEE doubles, which
agree with the rational values at these operand sizes. -/

/-- The auto-deactivation configuration (config/index.ts; startup validation
requires the consecutive threshold and window size to be at least 1). -/
structure DeactivationConfig where
  enabled : Bool
  consecutiveFailureThreshold : Nat
  failureRateThreshold : ℚ
  failureRateWindowSize : Nat
deriving DecidableEq, Repr

/-- Failures counted from the newest result backward, stopping at the first
success (lines 57-64). -/
def countConsecutiveFailures : List RequestStatus → Nat
  | [] => 0
  | s :: rest => if s = .SUCCESS then 0 else countConsecutiveFailures rest + 1

/-- The fetched sample: most recent results, newest first, capped at
max(consecutive threshold, rate window size) (lines 40-51). -/
def recentSample (cfg : DeactivationConfig) (history : List RequestStatus) :
    List RequestStatus :=
  history.take (max cfg.consecutiveFailureThreshold cfg.failureRateWindowSize)

/-- The failure-rate window: the first `failureRateWindowSize` entries of
the sample (line 76). -/
def failureRateWindow (cfg : DeactivationConfig)
    (history : List RequestStatus) : List RequestStatus :=
  (recentSample cfg history).take cfg.failureRateWindowSize

/-- Count of non-SUCCESS results (line 79). -/
def failedCountIn (l : List RequestStatus) : Nat :=
  (l.filter (fun s => s != .SUCCESS)).length

/-- `checkAutoDeactivation` (lines 34-98), reduced to its decision: false
when the feature is disabled or there is no data; otherwise the
consecutive-failure rule, then — only with at least 10 results in the
window (the constant at line 77) — the failure-rate rule. -/
def checkAutoDeactivation (cfg : DeactivationConfig)
    (history : List RequestStatus) : Bool :=
  if !cfg.enabled then false
  else
    if (recentSample cfg history).isEmpty then false
    else if countConsecutiveFailures (recentSample cfg history) ≥
        cfg.consecutiveFailureThreshold then true
    else if (failureRateWindow cfg history).length ≥ 10 then
      decide (cfg.failureRateThreshold ≤
        (failedCountIn (failureRateWindow cfg history) : ℚ) /
          (failureRateWindow cfg history).length)
    else false

/-- C6: the deactivation check fires exactly when the backward
consecutive-failure count reaches the configured threshold or the window
holds at least the minimum sample (the code's constant 10) with
failed/total at or above the configured rate; the count resets at the first
success; a disabled feature flag makes the check a no-op. -/
theorem C6_auto_deactivation_spec (cfg : DeactivationConfig)
    (history : List RequestStatus)
    (hthr : 1 ≤ cfg.consecutiveFailureThreshold) :
    (cfg.enabled = false → checkAutoDeactivation cfg history = false) ∧
    (cfg.enabled = true →
      (checkAutoDeactivation cfg history = true ↔
        countConsecutiveFailures (recentSample cfg history) ≥
            cfg.consecutiveFailureThreshold ∨
          ((failureRateWindow cfg history).length ≥ 10 ∧
            cfg.failureRateThreshold ≤
              (failedCountIn (failureRateWindow cfg history) : ℚ) /
                (failureRateWindow cfg history).length))) ∧
    (∀ xs ys : List RequestStatus,
      countConsecutiveFailures (xs ++ .SUCCESS :: ys) =
        countConsecutiveFailures xs) := by
  refine ⟨?_, ?_, ?_⟩
  · intro hoff
    simp [checkAutoDeactivation, hoff]
  · intro hon
    by_cases hempty : (recentSample cfg history).isEmpty
    · have hnil : recentSample cfg history = [] := by
        simpa using hempty
      have hwin : failureRateWindow cfg history = [] := by
        simp [failureRateWindow, hnil]
      simp [checkAutoDeactivation, hon, hempty, hnil, hwin,
        countConsecutiveFailures]
      omega
    · by_cases hcons : countConsecutiveFailures (recentSample cfg history) ≥
          cfg.consecutiveFailureThreshold
      · simp [checkAutoDeactivation, hon, hempty, hcons]
      · by_cases hten : (failureRateWindow cfg history).length ≥ 10
        · simp [checkAutoDeactivation, hon, hempty, hcons, hten]
        · simp [checkAutoDeactivation, hon, hempty, hcons, hten]
  · intro xs ys
    induction xs with
    | nil => simp [countConsecutiveFailures]
    | cons s rest ih =>
        by_cases hs : s = RequestStatus.SUCCESS
        · simp [countConsecutiveFailures, hs]
        · simp [countConsecutiveFailures, hs, ih]

/-- C6 witness: the theorem applied to a concrete configuration (threshold
3) and a history of three straight failures, which the check deactivates. -/
theorem C6_auto_deactivation_witness :
    1 ≤ (3 : Nat) ∧
    checkAutoDeactivation
      ⟨true, 3, (9 : ℚ)/10, 5⟩ [.TIMEOUT, .TIMEOUT, .TIMEOUT] = true := by
  refine ⟨by decide, ?_⟩
  exact ((C6_auto_deactivation_spec ⟨true, 3, (9 : ℚ)/10, 5⟩
      [.TIMEOUT, .TIMEOUT, .TIMEOUT] (by decide)).2.1 rfl).mpr
    (Or.inl (by decide))

/-! ## Circuit breaker (src/lib/circuit-breaker.ts lines 27-153)

`execute` first promotes an expired OPEN state to HALF_OPEN, rejects while
OPEN without invoking the wrapped function, and otherwise invokes it and
feeds the outcome to `onSuccess` / `onFailure`. -/

/-- `CircuitState` (line 8). -/
inductive CircuitState
  | CLOSED
  | OPEN
  | HALF_OPEN
deriving DecidableEq, Repr

/-- `CircuitBreakerOptions` (lines 10-14). -/
structure CircuitOptions where
  failureThreshold : Nat
  resetTimeout : Int
  monitoringPeriod : Int
deriving DecidableEq, Repr

/-- The breaker's mutable fields (lines 28-33). -/
structure CircuitBreaker where
  state : CircuitState
  failures : Nat
  successes : Nat
  lastFailureTime : Option Int
  lastSuccessTime : Option Int
  failureWindowStart : Int
deriving DecidableEq, Repr

/-- `checkReset` (lines 112-127): an OPEN breaker whose reset timeout has
elapsed since the last failure enters HALF_OPEN. -/
def checkReset (opts : CircuitOptions) (now : Int) (cb : CircuitBreaker) :
    CircuitBreaker :=
  match cb.state, cb.lastFailureTime with
  | .OPEN, some t =>
      if now - t ≥ opts.resetTimeout then { cb with state := .HALF_OPEN }
      else cb
  | _, _ => cb

/-- `onSuccess` (lines 63-73): bump the success counter; in HALF_OPEN also
close the circuit and reset the failure counter. -/
def onSuccess (now : Int) (cb : CircuitBreaker) : CircuitBreaker :=
  let cb1 := { cb with successes := cb.successes + 1, lastSuccessTime := some now }
  if cb1.state = .HALF_OPEN then { cb1 with state := .CLOSED, failures := 0 }
  else cb1

/-- `onFailure` (lines 78-107): reset the failure counter when the
monitoring window expired, bump it, and open the circuit from HALF_OPEN or
when the counter reaches the threshold. -/
def onFailure (opts : CircuitOptions) (now : Int) (cb : CircuitBreaker) :
    CircuitBreaker :=
  let cb1 :=
    if now - cb.failureWindowStart > opts.monitoringPeriod then
      { cb with failures := 0, failureWindowStart := now }
    else cb
  let cb2 := { cb1 with failures := cb1.failures + 1, lastFailureTime := some now }
  if cb2.state = .HALF_OPEN then { cb2 with state := .OPEN }
  else if cb2.failures ≥ opts.failureThreshold then { cb2 with state := .OPEN }
  else cb2

/-- What one call through the breaker yields: the wrapped call's outcome,
or a rejection in which the wrapped function was never invoked. -/
inductive CallResult
  | completed (ok : Bool)
  | rejected
deriving DecidableEq, Repr

/-- `execute` (lines 44-61); `outcome` is what the wrapped call would
return if invoked. -/
def execute (opts : CircuitOptions) (now : Int) (outcome : Bool)
    (cb : CircuitBreaker) : CallResult × CircuitBreaker :=
  let cbr := checkReset opts now cb
  if cbr.state = .OPEN then (.rejected, cbr)
  else if outcome then (.completed true, onSuccess now cbr)
  else (.completed false, onFailure opts now cbr)

/-- C7 counterexample: with threshold 2, the trace failure (t=0), success
(t=1000), failure (t=2000) — all inside one monitoring window — opens the
circuit and the call at t=3000 is rejected, although the two failures were
not consecutive (a success intervened); under the claim the breaker counts
consecutive failures, so it would have to remain closed. -/
theorem C7_nonconsecutive_failures_open :
    (execute ⟨2, 60000, 60000⟩ 2000 false
      (execute ⟨2, 60000, 60000⟩ 1000 true
        (execute ⟨2, 60000, 60000⟩ 0 false
          ⟨.CLOSED, 0, 0, none, none, 0⟩).2).2).2.state = .OPEN ∧
    (execute ⟨2, 60000, 60000⟩ 3000 true
      (execute ⟨2, 60000, 60000⟩ 2000 false
        (execute ⟨2, 60000, 60000⟩ 1000 true
          (execute ⟨2, 60000, 60000⟩ 0 false
            ⟨.CLOSED, 0, 0, none, none, 0⟩).2).2).2).1 = .rejected := by
  exact ⟨by decide, by decide⟩

/-- C7 amended: in Closed the breaker permits calls and counts failures
within the monitoring window — the counter resets only when a failure
arrives after the window expired, a success does not interrupt it — and it
opens exactly when the counter reaches the threshold at a failure
(consecutive or not); while Open before the reset timeout since the last
failure every call is rejected unchanged without invoking the wrapped
function; once the timeout has elapsed the next call runs (HalfOpen): a
success closes the circuit and resets the failure counter, a failure
reopens it. -/
theorem C7_circuit_breaker_amended (opts : CircuitOptions)
    (cb : CircuitBreaker) (now t : Int) (outcome : Bool) :
    (cb.state = .CLOSED →
      (execute opts now outcome cb).1 = .completed outcome) ∧
    (cb.state = .CLOSED →
      (execute opts now false cb).2.failures =
        (if now - cb.failureWindowStart > opts.monitoringPeriod then 0
         else cb.failures) + 1) ∧
    (cb.state = .CLOSED →
      ((execute opts now false cb).2.state = .OPEN ↔
        (execute opts now false cb).2.failures ≥ opts.failureThreshold)) ∧
    (cb.state = .CLOSED →
      (execute opts now true cb).2.state = .CLOSED ∧
      (execute opts now true cb).2.failures = cb.failures) ∧
    (cb.state = .OPEN → cb.lastFailureTime = some t →
      now - t < opts.resetTimeout →
      (execute opts now outcome cb).1 = .rejected ∧
      (execute opts now outcome cb).2 = cb) ∧
    (cb.state = .OPEN → cb.lastFailureTime = some t →
      now - t ≥ opts.resetTimeout →
      (execute opts now outcome cb).1 = .completed outcome ∧
      (execute opts now true cb).2.state = .CLOSED ∧
      (execute opts now true cb).2.failures = 0 ∧
      (execute opts now false cb).2.state = .OPEN) ∧
    (cb.state = .HALF_OPEN →
      (execute opts now true cb).2.state = .CLOSED ∧
      (execute opts now true cb).2.failures = 0 ∧
      (execute opts now false cb).2.state = .OPEN) := by
  obtain ⟨st, fl, su, lf, ls, ws⟩ := cb
  refine ⟨?_, ?_, ?_, ?_, ?_, ?_, ?_⟩
  · intro h
    simp only at h
    subst h
    cases outcome <;>
      simp [execute, checkReset, onSuccess, onFailure]
  · intro h
    simp only at h
    subst h
    by_cases hw : now - ws > opts.monitoringPeriod
    · simp [execute, checkReset, onFailure, hw]
      split_ifs <;> simp_all
    · simp [execute, checkReset, onFailure, hw]
      split_ifs <;> simp_all
  · intro h
    simp only at h
    subst h
    by_cases hw : now - ws > opts.monitoringPeriod
    · by_cases hth : 0 + 1 ≥ opts.failureThreshold <;>
        simp [execute, checkReset, onFailure, hw, hth]
    · by_cases hth : fl + 1 ≥ opts.failureThreshold <;>
        simp [execute, checkReset, onFailure, hw, hth]
  · intro h
    simp only at h
    subst h
    simp [execute, checkReset, onSuccess]
  · intro h hlf hlt
    simp only at h hlf
    subst h
    subst hlf
    have hnr : ¬ now - t ≥ opts.resetTimeout := not_le.mpr hlt
    simp [execute, checkReset, hnr]
  · intro h hlf hge
    simp only at h hlf
    subst h
    subst hlf
    refine ⟨?_, ?_, ?_, ?_⟩
    · cases outcome <;> simp [execute, checkReset, hge]
    · simp [execute, checkReset, onSuccess, hge]
    · simp [execute, checkReset, onSuccess, hge]
    · simp [execute, checkReset, onFailure, hge]
      split_ifs <;> simp_all
  · intro h
    simp only at h
    subst h
    refine ⟨?_, ?_, ?_⟩
    · simp [execute, checkReset, onSuccess]
    · simp [execute, checkReset, onSuccess]
    · simp [execute, checkReset, onFailure]
      split_ifs <;> simp_all

/-! ## Stability classifier (src/services/stability-calculator.ts)

`checkHourlyStability` fetches the device's rows of the last hour and
slides a 1-hour window in 10-minute steps over the last two hours (13
window positions); `checkDailyStability` fetches the last 24 hours and
slides a 24-hour window in 1-hour steps over the last two days (49
positions). A window's downtime is its failed-row count times the probe
interval, and instability needs strictly more than the threshold.
`calculateProxyStability` checks daily before hourly. -/

/-- One test-request row as the classifier reads it. -/
structure StReq where
  timestamp : Int
  status : RequestStatus
deriving DecidableEq, Repr

/-- Line 24: 10 minutes. -/
def UNSTABLE_HOURLY_THRESHOLD_MS : Nat := 600000

/-- Line 25: 1 hour. -/
def UNSTABLE_DAILY_THRESHOLD_MS : Nat := 3600000

/-- `calculateDowntime` (lines 35-37): failed count times the configured
probe interval. -/
def calculateDowntime (failedCount intervalMs : Nat) : Nat :=
  failedCount * intervalMs

/-- The rows the hourly check fetches: timestamps within the last hour. -/
def hourlyFetched (now : Int) (reqs : List StReq) : List StReq :=
  reqs.filter fun r => decide (now - 3600000 <= r.timestamp)

/-- The rows the daily check fetches: timestamps within the last 24 hours. -/
def dailyFetched (now : Int) (reqs : List StReq) : List StReq :=
  reqs.filter fun r => decide (now - 86400000 <= r.timestamp)

/-- Failed (non-SUCCESS) rows of `reqs` with timestamps inside the closed
window `[windowStart, windowEnd]` (lines 79-83). -/
def windowFailedCount (reqs : List StReq) (windowStart windowEnd : Int) : Nat :=
  ((reqs.filter fun r =>
      decide (windowStart <= r.timestamp) && decide (r.timestamp <= windowEnd)).filter
    fun r => r.status != .SUCCESS).length

/-- Downtime of the k-th 1-hour window: window starts slide from
`now - 2h` in 10-minute steps (line 73). -/
def hourlyWindowDowntime (now : Int) (intervalMs : Nat) (reqs : List StReq)
    (k : Nat) : Nat :=
  calculateDowntime
    (windowFailedCount (hourlyFetched now reqs)
      (now - 2 * 3600000 + 600000 * (k : Int))
      (now - 2 * 3600000 + 600000 * (k : Int) + 3600000))
    intervalMs

/-- Downtime of the k-th 24-hour window: window starts slide from
`now - 48h` in 1-hour steps (line 136). -/
def dailyWindowDowntime (now : Int) (intervalMs : Nat) (reqs : List StReq)
    (k : Nat) : Nat :=
  calculateDowntime
    (windowFailedCount (dailyFetched now reqs)
      (now - 2 * 86400000 + 3600000 * (k : Int))
      (now - 2 * 86400000 + 3600000 * (k : Int) + 86400000))
    intervalMs

/-- `checkHourlyStability` (lines 45-101): false with no fetched data;
otherwise true when some of the 13 window positions has downtime strictly
above 10 minutes. -/
def checkHourlyStability (now : Int) (intervalMs : Nat)
    (reqs : List StReq) : Bool :=
  if (hourlyFetched now reqs).isEmpty then false
  else
    (List.range 13).any fun k =>
      decide (hourlyWindowDowntime now intervalMs reqs k >
        UNSTABLE_HOURLY_THRESHOLD_MS)

/-- `checkDailyStability` (lines 109-164): false with no fetched data;
otherwise true when some of the 49 window positions has downtime strictly
above 1 hour. -/
def checkDailyStability (now : Int) (intervalMs : Nat)
    (reqs : List StReq) : Bool :=
  if (dailyFetched now reqs).isEmpty then false
  else
    (List.range 49).any fun k =>
      decide (dailyWindowDowntime now intervalMs reqs k >
        UNSTABLE_DAILY_THRESHOLD_MS)

/-- `calculateProxyStability` (lines 172-210), daily before hourly; the
source's catch branch (Unknown on a thrown storage error) is outside this
pure model. -/
def calculateProxyStability (now : Int) (intervalMs : Nat)
    (reqs : List StReq) : StabilityStatus :=
  if checkDailyStability now intervalMs reqs then .UnstableDaily
  else if checkHourlyStability now intervalMs reqs then .UnstableHourly
  else .Stable

/-- The daily check fires exactly when some 24-hour window position has
downtime strictly above the daily threshold. -/
theorem checkDailyStability_iff (now : Int) (intervalMs : Nat)
    (reqs : List StReq) :
    checkDailyStability now intervalMs reqs = true ↔
      ∃ k, k < 49 ∧ dailyWindowDowntime now intervalMs reqs k >
        UNSTABLE_DAILY_THRESHOLD_MS := by
  unfold checkDailyStability
  by_cases h : (dailyFetched now reqs).isEmpty
  · have hnil : dailyFetched now reqs = [] := by simpa using h
    simp [h, dailyWindowDowntime, windowFailedCount, calculateDowntime, hnil,
      UNSTABLE_DAILY_THRESHOLD_MS]
  · simp [h, List.any_eq_true, List.mem_range]

/-- The hourly check fires exactly when some 1-hour window position has
downtime strictly above the hourly threshold. -/
theorem checkHourlyStability_iff (now : Int) (intervalMs : Nat)
    (reqs : List StReq) :
    checkHourlyStability now intervalMs reqs = true ↔
      ∃ k, k < 13 ∧ hourlyWindowDowntime now intervalMs reqs k >
        UNSTABLE_HOURLY_THRESHOLD_MS := by
  unfold checkHourlyStability
  by_cases h : (hourlyFetched now reqs).isEmpty
  · have hnil : hourlyFetched now reqs = [] := by simpa using h
    simp [h, hourlyWindowDowntime, windowFailedCount, calculateDowntime, hnil,
      UNSTABLE_HOURLY_THRESHOLD_MS]
  · simp [h, List.any_eq_true, List.mem_range]

/-- C3: the classifier yields UnstableDaily exactly when some 24-hour
window has downtime strictly above 3,600,000 ms, else UnstableHourly
exactly when some 1-hour window has downtime strictly above 600,000 ms,
else Stable; a window's downtime is its failed count times the probe
interval; and at the boundary a 1-hour window with exactly 600,000 ms of
downtime does not make the device UnstableHourly while 600,001 ms does. -/
theorem C3_stability_classifier_spec (now : Int) (intervalMs : Nat)
    (reqs : List StReq) :
    (calculateProxyStability now intervalMs reqs = .UnstableDaily ↔
      ∃ k, k < 49 ∧ dailyWindowDowntime now intervalMs reqs k >
        UNSTABLE_DAILY_THRESHOLD_MS) ∧
    (calculateProxyStability now intervalMs reqs = .UnstableHourly ↔
      (¬ ∃ k, k < 49 ∧ dailyWindowDowntime now intervalMs reqs k >
          UNSTABLE_DAILY_THRESHOLD_MS) ∧
        ∃ k, k < 13 ∧ hourlyWindowDowntime now intervalMs reqs k >
          UNSTABLE_HOURLY_THRESHOLD_MS) ∧
    (calculateProxyStability now intervalMs reqs = .Stable ↔
      (¬ ∃ k, k < 49 ∧ dailyWindowDowntime now intervalMs reqs k >
          UNSTABLE_DAILY_THRESHOLD_MS) ∧
        ¬ ∃ k, k < 13 ∧ hourlyWindowDowntime now intervalMs reqs k >
          UNSTABLE_HOURLY_THRESHOLD_MS) ∧
    (∀ k, hourlyWindowDowntime now intervalMs reqs k =
      windowFailedCount (hourlyFetched now reqs)
          (now - 2 * 3600000 + 600000 * (k : Int))
          (now - 2 * 3600000 + 600000 * (k : Int) + 3600000) * intervalMs) ∧
    (∀ k, dailyWindowDowntime now intervalMs reqs k =
      windowFailedCount (dailyFetched now reqs)
          (now - 2 * 86400000 + 3600000 * (k : Int))
          (now - 2 * 86400000 + 3600000 * (k : Int) + 86400000) * intervalMs) ∧
    calculateProxyStability 0 600000 [⟨-1000, .TIMEOUT⟩] = .Stable ∧
    calculateProxyStability 0 600001 [⟨-1000, .TIMEOUT⟩] = .UnstableHourly := by
  have hdlem : calculateProxyStability now intervalMs reqs = .UnstableDaily ↔
      checkDailyStability now intervalMs reqs = true := by
    unfold calculateProxyStability
    by_cases hd : checkDailyStability now intervalMs reqs = true
    · simp [hd]
    · by_cases hh : checkHourlyStability now intervalMs reqs = true
      · simp [hd, hh]
      · simp [hd, hh]
  have hhlem : calculateProxyStability now intervalMs reqs = .UnstableHourly ↔
      (¬ checkDailyStability now intervalMs reqs = true ∧
        checkHourlyStability now intervalMs reqs = true) := by
    unfold calculateProxyStability
    by_cases hd : checkDailyStability now intervalMs reqs = true
    · simp [hd]
    · by_cases hh : checkHourlyStability now intervalMs reqs = true
      · simp [hd, hh]
      · simp [hd, hh]
  have hslem : calculateProxyStability now intervalMs reqs = .Stable ↔
      (¬ checkDailyStability now intervalMs reqs = true ∧
        ¬ checkHourlyStability now intervalMs reqs = true) := by
    unfold calculateProxyStability
    by_cases hd : checkDailyStability now intervalMs reqs = true
    · simp [hd]
    · by_cases hh : checkHourlyStability now intervalMs reqs = true
      · simp [hd, hh]
      · simp [hd, hh]
  refine ⟨?_, ?_, ?_, fun k => rfl, fun k => rfl, by decide, by decide⟩
  · rw [hdlem, checkDailyStability_iff]
  · rw [hhlem]
    exact and_congr (not_congr (checkDailyStability_iff now intervalMs reqs))
      (checkHourlyStability_iff now intervalMs reqs)
  · rw [hslem]
    exact and_congr (not_congr (checkDailyStability_iff now intervalMs reqs))
      (not_congr (checkHourlyStability_iff now intervalMs reqs))

/-- C4 counterexample: with no test results at all the classifier yields
Stable, not Unknown — both window checks return "not unstable" on no data
and the classifier falls through to Stable. -/
theorem C4_no_data_yields_stable :
    calculateProxyStability 0 5000 [] = .Stable ∧
    calculateProxyStability 0 5000 [] ≠ .Unknown := by
  exact ⟨by decide, by decide⟩

/-- C4 amended: for a device all of whose test results lie outside the
24-hour lookback range (so both fetches are empty), the classification is
Stable; Unknown arises only from the error path, when the per-device
computation throws. -/
theorem C4_no_data_amended (now : Int) (intervalMs : Nat) (reqs : List StReq)
    (h : ∀ r ∈ reqs, r.timestamp < now - 86400000) :
    calculateProxyStability now intervalMs reqs = .Stable := by
  have hd : dailyFetched now reqs = [] := by
    simp only [dailyFetched, List.filter_eq_nil_iff]
    intro r hr
    simpa using not_le.mpr (h r hr)
  have hh : hourlyFetched now reqs = [] := by
    simp only [hourlyFetched, List.filter_eq_nil_iff]
    intro r hr
    have h1 := h r hr
    simp only [decide_eq_true_eq]
    omega
  simp [calculateProxyStability, checkDailyStability, checkHourlyStability,
    hd, hh]

/-- C4 witness: the amended theorem applied to one stale row. -/
theorem C4_no_data_amended_witness :
    calculateProxyStability 0 5000 [⟨-100000000, .TIMEOUT⟩] = .Stable := by
  exact C4_no_data_amended 0 5000 [⟨-100000000, .TIMEOUT⟩] (by decide)

end XProxy
